import Mathlib

/-!
Verification of `custom_components/mosoblgaz/config_flow.py`.

The module is a pair of reactive wizard handlers (setup flow and options
flow) driven by an external flow engine.  Each step callback receives an
optional user-input mapping and returns a declarative result: show-form,
create-entry or abort.  We embed each step as a pure function from an
explicit wizard state (the fields the Python handler keeps on `self`)
and the optional input to a new state plus a result.

Python runtime faults that the module itself can raise (NameError for the
undefined identifier `u` on line 116, AttributeError for the never-defined
attribute `schema_contract` on line 96, IndexError/TypeError on unreachable
defensive paths) are modelled by an explicit `pyError` result constructor.

The vendor API client (`MosoblgazAPI`) is an external collaborator: its two
calls are modelled as oracle outcomes carried by an `Api` record, and the
user step records which calls it performed in a trace list.
-/

namespace Mosoblgaz

/-- Submission payload of the `contract` form: the `enable_contract` toggle
(absent field means falsy, collapsed into `Bool`) and the optional
meters/invoices filter selections, whose concrete values are opaque here. -/
structure ContractInput where
  enable_contract : Bool
  meters : Option Bool
  invoices : Option Bool
deriving DecidableEq

/-- A recorded per-contract decision, the value stored at
`self._current_config[CONF_CONTRACTS][contract_id]`: Python `False`, or the
two-key dict built on lines 100-103 (always truthy as a non-empty dict). -/
inductive ContractDecision where
  | disabled : ContractDecision
  | enabled : Option Bool → Option Bool → ContractDecision
deriving DecidableEq

/-- Python truthiness of a recorded decision: `False` is falsy, the two-key
config dict is truthy. -/
def ContractDecision.truthy : ContractDecision → Bool
  | .disabled => false
  | .enabled _ _ => true

/-- Lines 99-106: the decision recorded for a submission. -/
def decisionOf (input : ContractInput) : ContractDecision :=
  if input.enable_contract then ContractDecision.enabled input.meters input.invoices
  else ContractDecision.disabled

/-- Submission payload of the `user` form (the authentication sub-schema):
username, password, and the optional `add_all_contracts` flag collapsed to
its truthiness. -/
structure UserInput where
  username : String
  password : String
  add_all_contracts : Bool
deriving DecidableEq

/-- The pending registration mapping `self._current_config`: the submitted
user input spread together with a `contracts` decision dict (line 79).
The dict keeps Python insertion order, so it is an association list. -/
structure CurrentConfig where
  username : String
  password : String
  add_all_contracts : Bool
  contracts : List (String × ContractDecision)
deriving DecidableEq

/-- Python dict assignment `d[k] = v`: overwrite in place when the key is
present (position preserved), append otherwise. -/
def dictSet (d : List (String × ContractDecision)) (k : String) (v : ContractDecision) :
    List (String × ContractDecision) :=
  if d.any (fun p => p.fst == k) then
    d.map (fun p => if p.fst == k then (k, v) else p)
  else d ++ [(k, v)]

/-- The mutable per-flow state held on the `MosoblgazFlowHandler` instance
(lines 29-31): the not-yet-decided contract ids (dict keys in insertion
order), the id being presented, and the pending configuration.  All three
start as `None`. -/
structure FlowState where
  contracts : Option (List String)
  lastContractId : Option String
  currentConfig : Option CurrentConfig
deriving DecidableEq

/-- Handler state right after `__init__` (lines 29-31). -/
def initialFlowState : FlowState := ⟨none, none, none⟩

/-- Data payload of a created setup entry: the raw user input (line 83) or
the username-only mapping of the import path (line 127). -/
inductive EntryData where
  | fromUserInput : UserInput → EntryData
  | importUser : String → EntryData
deriving DecidableEq

/-- Declarative result of a setup-flow step: show-form (step id, optional
error key), create-entry (title, data), abort (reason), or an uncaught
Python runtime error raised while producing the result. -/
inductive FlowResult where
  | showForm : String → Option String → FlowResult
  | createEntry : String → EntryData → FlowResult
  | abort : String → FlowResult
  | pyError : String → FlowResult
deriving DecidableEq

/-- A step's outcome: the handler state after the call and the result. -/
structure StepOut where
  state : FlowState
  result : FlowResult
deriving DecidableEq

/-- Outcome of one collaborator API call: a value, or one of the three
exception kinds the flow handles — `AuthenticationFailedException`
(`authFailedExc`), `PartialOfflineException` (`offlineExc`),
`MosoblgazException` (`mosoblgazExc`). -/
inductive ApiCallResult (α : Type) where
  | ok : α → ApiCallResult α
  | authFailedExc : ApiCallResult α
  | offlineExc : ApiCallResult α
  | mosoblgazExc : ApiCallResult α
deriving DecidableEq

/-- Oracle for the collaborator client: what `api.authenticate()` and
`api.fetch_contracts(with_data=False)` would do in this run.  A successful
fetch yields the contract ids in the response's insertion order. -/
structure Api where
  authenticate : ApiCallResult Unit
  fetch_contracts : ApiCallResult (List String)
deriving DecidableEq

/-- Outcome of the `user` / `import` steps, additionally recording the trace
of collaborator calls performed (empty when the client was never
constructed or invoked). -/
structure UserStepOut where
  state : FlowState
  result : FlowResult
  apiCalls : List String
deriving DecidableEq

/-- Lines 37-44, `_check_entry_exists`: scan the current entries for one
whose data has exactly this username.  An entry's `data.get(CONF_USERNAME)`
may be absent (`none`), which never equals a string. -/
def check_entry_exists (entries : List (Option String)) (username : String) : Bool :=
  entries.any (fun e => e == some username)

/-- Lines 86-92: resolve the contract id to work on.  On a first visit
(`self._last_contract_id is None`) pop the first pending id off the dict
and remember it; otherwise reuse the remembered one.  A first visit with
the pending dict unset would raise TypeError on line 87, with it empty an
IndexError.  Note the remembered id is never cleared anywhere, so after
the first visit every later call resolves the same id and the pending dict
is never popped again. -/
def resolveContractId (s : FlowState) : Except String (FlowState × String) :=
  match s.lastContractId with
  | some contract_id => Except.ok (s, contract_id)
  | none =>
    match s.contracts with
    | none => Except.error "TypeError"
    | some [] => Except.error "IndexError"
    | some (contract_id :: rest) =>
      Except.ok ({ s with contracts := some rest, lastContractId := some contract_id },
        contract_id)

/-- Lines 85-97 with `user_input=None` (also the target of the tail
self-call on line 111, which passes no input): resolve the id, then render
the form.  Rendering evaluates `self.schema_contract` (line 96), an
attribute never assigned anywhere in the class, so it raises
AttributeError before any form can be shown. -/
def contract_step_show (s : FlowState) : StepOut :=
  match resolveContractId s with
  | Except.error e => ⟨s, FlowResult.pyError e⟩
  | Except.ok (s1, _) => ⟨s1, FlowResult.pyError "AttributeError"⟩

/-- Lines 85-116, `async_step_contract`.  With no input this is
`contract_step_show`.  With input: resolve the id, record the decision
under it (lines 99-108), then either make the tail self-call with no input
while pending contracts remain (line 111) — which is exactly
`contract_step_show` — or finalize.  Finalization tests
`all(filter(lambda x: not x, decisions))` (line 113): `filter` keeps the
falsy decisions and `all` re-tests their truthiness, so the test is true
iff no decision is falsy; when it is false, line 116 evaluates the
undefined name `u` and raises NameError. -/
def async_step_contract (s : FlowState) (user_input : Option ContractInput) : StepOut :=
  match resolveContractId s with
  | Except.error e => ⟨s, FlowResult.pyError e⟩
  | Except.ok (s1, contract_id) =>
    match user_input with
    | none => ⟨s1, FlowResult.pyError "AttributeError"⟩
    | some input =>
      match s1.currentConfig with
      | none => ⟨s1, FlowResult.pyError "TypeError"⟩
      | some cfg =>
        let cfg2 := { cfg with contracts := dictSet cfg.contracts contract_id (decisionOf input) }
        let s2 := { s1 with currentConfig := some cfg2 }
        match s2.contracts with
        | some (_ :: _) => contract_step_show s2
        | _ =>
          if ((cfg2.contracts.map Prod.snd).filter
                (fun d => !(ContractDecision.truthy d))).all
              (fun d => ContractDecision.truthy d) then
            ⟨s2, FlowResult.abort "nothing_enabled"⟩
          else
            ⟨s2, FlowResult.pyError "NameError"⟩

/-- Lines 47-83, `async_step_user`.  No input: show the `user` form.  With
input: abort `already_exists` on a duplicate username before the client is
even constructed; otherwise authenticate and fetch the contract list,
mapping each handled exception (from either call — both sit in the same
`try` block) to its result; abort `contracts_missing` on an empty fetch;
then either initialize the pending registration state and tail-call the
contract step with no input (lines 79-81), or — when `add_all_contracts`
was set — create the entry at once with the raw input as data (line 83). -/
def async_step_user (entries : List (Option String)) (api : Api) (s : FlowState)
    (user_input : Option UserInput) : UserStepOut :=
  match user_input with
  | none => ⟨s, FlowResult.showForm "user" none, []⟩
  | some input =>
    if check_entry_exists entries input.username then
      ⟨s, FlowResult.abort "already_exists", []⟩
    else
      match api.authenticate with
      | ApiCallResult.authFailedExc =>
        ⟨s, FlowResult.showForm "user" (some "invalid_credentials"), ["authenticate"]⟩
      | ApiCallResult.offlineExc => ⟨s, FlowResult.abort "partial_offline", ["authenticate"]⟩
      | ApiCallResult.mosoblgazExc => ⟨s, FlowResult.abort "api_error", ["authenticate"]⟩
      | ApiCallResult.ok _ =>
        match api.fetch_contracts with
        | ApiCallResult.authFailedExc =>
          ⟨s, FlowResult.showForm "user" (some "invalid_credentials"),
            ["authenticate", "fetch_contracts"]⟩
        | ApiCallResult.offlineExc =>
          ⟨s, FlowResult.abort "partial_offline", ["authenticate", "fetch_contracts"]⟩
        | ApiCallResult.mosoblgazExc =>
          ⟨s, FlowResult.abort "api_error", ["authenticate", "fetch_contracts"]⟩
        | ApiCallResult.ok contracts =>
          if contracts.isEmpty then
            ⟨s, FlowResult.abort "contracts_missing", ["authenticate", "fetch_contracts"]⟩
          else if !input.add_all_contracts then
            let s1 : FlowState :=
              { s with
                currentConfig :=
                  some ⟨input.username, input.password, input.add_all_contracts, []⟩,
                contracts := some contracts }
            let out := contract_step_show s1
            ⟨out.state, out.result, ["authenticate", "fetch_contracts"]⟩
          else
            ⟨s, FlowResult.createEntry ("User: " ++ input.username)
              (EntryData.fromUserInput input), ["authenticate", "fetch_contracts"]⟩

/-- Lines 118-127, `async_step_import`: abort `unknown_error` when no input
was supplied; abort `already_exists` on a duplicate username; otherwise
create a minimal entry holding only the username.  The collaborator client
is never used on this path. -/
def async_step_import (entries : List (Option String)) (s : FlowState)
    (user_input : Option UserInput) : UserStepOut :=
  match user_input with
  | none => ⟨s, FlowResult.abort "unknown_error", []⟩
  | some input =>
    if check_entry_exists entries input.username then
      ⟨s, FlowResult.abort "already_exists", []⟩
    else
      ⟨s, FlowResult.createEntry ("User: " ++ input.username)
        (EntryData.importUser input.username), []⟩

/-- The three option fields of an entry's `data` / `options` mappings, each
possibly absent: `invert_invoices`, `timeout` (seconds), `scan_interval`
(seconds).  An empty mapping is the all-`none` record. -/
structure EntrySettings where
  invert_invoices : Option Bool
  timeout : Option Nat
  scan_interval : Option Nat
deriving DecidableEq

/-- Line 179, `{**data, **options}`: per key, the options value wins when
present, the data value is the fallback. -/
def mergeUnder (data options : EntrySettings) : EntrySettings where
  invert_invoices :=
    match options.invert_invoices with
    | some v => some v
    | none => data.invert_invoices
  timeout :=
    match options.timeout with
    | some v => some v
    | none => data.timeout
  scan_interval :=
    match options.scan_interval with
    | some v => some v
    | none => data.scan_interval

/-- The bound config entry as the options flow reads it: its source string,
schema version, original data and current options.  `options or {}` on
line 175 is the identity under this model, since the empty mapping is the
all-`none` record. -/
structure ConfigEntryRec where
  source : String
  version : Nat
  data : EntrySettings
  options : EntrySettings
deriving DecidableEq

/-- The platform constant `SOURCE_IMPORT`. -/
def SOURCE_IMPORT : String := "import"

/-- Modelled from the spec: the constants `DEFAULT_INVERT_INVOICES`,
`DEFAULT_TIMEOUT` and `DEFAULT_SCAN_INTERVAL` live in the package root
module, which is outside this snippet; the spec's field table only calls
them "platform default".  They enter the model as abstract parameters. -/
structure PlatformDefaults where
  invert_invoices : Bool
  timeout : Nat
  scan_interval : Nat
deriving DecidableEq

/-- The three defaults resolved on lines 181-183 and baked into the
rendered `user` options form. -/
structure OptionsDefaults where
  invert_invoices : Bool
  timeout : Nat
  scan_interval : Nat
deriving DecidableEq

/-- Submission payload of an options-flow form: the three option fields
(any subset) plus the placeholder `not_in_use` toggle of the legacy form. -/
structure OptionsUserInput where
  invert_invoices : Option Bool
  timeout : Option Nat
  scan_interval : Option Nat
  not_in_use : Option Bool
deriving DecidableEq

/-- Declarative result of an options-flow step: the `user` form with its
resolved defaults, the legacy `import` form (its single field name and
default), or create-entry (title, data). -/
inductive OptionsFlowResult where
  | showForm : String → OptionsDefaults → OptionsFlowResult
  | showImportForm : String → Bool → OptionsFlowResult
  | createEntry : String → OptionsUserInput → OptionsFlowResult
deriving DecidableEq

/-- Lines 175-179: the option mapping the form defaults are read from —
the entry's options, with the original entry data merged underneath when
the entry is still at schema version 1. -/
def options_resolved (entry : ConfigEntryRec) : EntrySettings :=
  let options := entry.options
  if entry.version = 1 then mergeUnder entry.data options else options

/-- Lines 153-164, options `async_step_import`: the body is a single
`async_show_form` call rendering the placeholder `not_in_use` boolean
(default `False`); the input argument is never examined, so every call —
submission or not — shows that form again and no entry is ever created. -/
def options_async_step_import (_entry : ConfigEntryRec)
    (_user_input : Option OptionsUserInput) : OptionsFlowResult :=
  OptionsFlowResult.showImportForm "not_in_use" false

/-- Lines 166-194, options `async_step_user`: on submission, create the
entry with empty title and the submitted mapping verbatim (line 173);
otherwise resolve the three defaults from `options_resolved` with the
platform constants as final fallbacks (lines 181-183) and show the form. -/
def options_async_step_user (pd : PlatformDefaults) (entry : ConfigEntryRec)
    (user_input : Option OptionsUserInput) : OptionsFlowResult :=
  match user_input with
  | some input => OptionsFlowResult.createEntry "" input
  | none =>
    OptionsFlowResult.showForm "user"
      ⟨((options_resolved entry).invert_invoices).getD pd.invert_invoices,
       ((options_resolved entry).timeout).getD pd.timeout,
       ((options_resolved entry).scan_interval).getD pd.scan_interval⟩

/-- Lines 142-151, options `async_step_init`: dispatch on the bound entry's
origin — the import step for legacy entries, the user step otherwise — and
forward the input unchanged. -/
def options_async_step_init (pd : PlatformDefaults) (entry : ConfigEntryRec)
    (user_input : Option OptionsUserInput) : OptionsFlowResult :=
  if entry.source = SOURCE_IMPORT then options_async_step_import entry user_input
  else options_async_step_user pd entry user_input

/-- The options-default resolution rule as the spec words it, for one
field: the option value when one exists, else the entry's data value, else
the fixed default.  Stated separately from the code's merge-then-get
computation so the two can be compared. -/
def specDefault {α : Type} : Option α → Option α → α → α
  | some v, _, _ => v
  | none, some w, _ => w
  | none, none, f => f

/-- C1: the claim says the contract-exhaustion branch aborts
`nothing_enabled` exactly when every recorded decision is false, and
creates an entry when some decision is truthy.  The code does the opposite
on both sides: `all(filter(lambda x: not x, decisions))` (line 113) keeps
the falsy decisions and re-tests their truthiness, so it is true iff no
decision is falsy.  With the single decision false the flow falls through
to line 116, which raises NameError on the undefined name `u`; with the
single decision truthy it aborts `nothing_enabled`. -/
theorem C1_contract_finalization_inverted :
    (async_step_contract ⟨some [], some "A", some ⟨"alice", "pw", false, []⟩⟩
        (some ⟨false, none, none⟩)).result = FlowResult.pyError "NameError"
  ∧ (async_step_contract ⟨some [], some "A", some ⟨"alice", "pw", false, []⟩⟩
        (some ⟨true, some true, some true⟩)).result = FlowResult.abort "nothing_enabled" := by
  decide

/-- C2: the claim says a run over N pending contracts visits the contract
state N times with distinct ids and ends in a terminal result with all N
decisions recorded.  With two fetched contracts the very first visit
cannot even render (line 96 reads the never-assigned `schema_contract`,
raising AttributeError), and a submission then resolves the remembered
first id again — `_last_contract_id` is never cleared, the second id is
never popped — so the pending set still holds the second contract and the
step re-enters the same failing show path instead of reaching a terminal
result. -/
theorem C2_contract_iteration_stuck :
    async_step_user [] ⟨ApiCallResult.ok (), ApiCallResult.ok ["C1", "C2"]⟩ initialFlowState
        (some ⟨"alice", "x", false⟩)
      = ⟨⟨some ["C2"], some "C1", some ⟨"alice", "x", false, []⟩⟩,
          FlowResult.pyError "AttributeError", ["authenticate", "fetch_contracts"]⟩
  ∧ async_step_contract ⟨some ["C2"], some "C1", some ⟨"alice", "x", false, []⟩⟩
        (some ⟨true, some true, some true⟩)
      = ⟨⟨some ["C2"], some "C1",
            some ⟨"alice", "x", false,
              [("C1", ContractDecision.enabled (some true) (some true))]⟩⟩,
          FlowResult.pyError "AttributeError"⟩ := by
  decide

/-- C3: the claim (and the spec's own defect note) says the exhaustion
branch should create an entry titled with the stored username and the
accumulated configuration as data.  The code cannot: with the single
pending contract enabled, the inverted emptiness test of line 113 fires
and the flow aborts `nothing_enabled`; and in a state whose recorded
decisions are mixed — the only way to reach line 116 — that line raises
NameError on the undefined name `u` (and passes no data at all), so no
entry is ever created by this branch. -/
theorem C3_create_entry_title_undefined :
    (async_step_contract ⟨some [], some "B", some ⟨"alice", "x", false, []⟩⟩
        (some ⟨true, none, none⟩)).result = FlowResult.abort "nothing_enabled"
  ∧ (async_step_contract
        ⟨some [], some "B", some ⟨"alice", "x", false, [("A", ContractDecision.disabled)]⟩⟩
        (some ⟨true, none, none⟩)).result = FlowResult.pyError "NameError" := by
  decide

/-- C4: a submitted username already backing an existing entry makes both
`async_step_user` and `async_step_import` abort `already_exists`, with the
handler state untouched and an empty collaborator-call trace (the client
is checked for before it is constructed or invoked). -/
theorem C4_duplicate_username_aborts (entries : List (Option String)) (api : Api)
    (s : FlowState) (input : UserInput) (h : some input.username ∈ entries) :
    async_step_user entries api s (some input) = ⟨s, FlowResult.abort "already_exists", []⟩
  ∧ async_step_import entries s (some input) = ⟨s, FlowResult.abort "already_exists", []⟩ := by
  have hc : check_entry_exists entries input.username = true := by
    simp only [check_entry_exists, List.any_eq_true]
    exact ⟨some input.username, h, by simp⟩
  constructor <;> simp [async_step_user, async_step_import, hc]

/-- C4 witness: both steps abort on the duplicate username `alice`. -/
theorem C4_duplicate_username_aborts_witness :
    async_step_user [some "alice"] ⟨ApiCallResult.ok (), ApiCallResult.ok ["C1"]⟩
        initialFlowState (some ⟨"alice", "x", false⟩)
      = ⟨initialFlowState, FlowResult.abort "already_exists", []⟩
  ∧ async_step_import [some "alice"] initialFlowState (some ⟨"alice", "x", false⟩)
      = ⟨initialFlowState, FlowResult.abort "already_exists", []⟩ :=
  C4_duplicate_username_aborts [some "alice"] ⟨ApiCallResult.ok (), ApiCallResult.ok ["C1"]⟩
    initialFlowState ⟨"alice", "x", false⟩ (by decide)

/-- C5: when authentication succeeds but the fetched contract mapping is
empty, the user step aborts `contracts_missing` with the handler state
unchanged — in particular the pending registration state is never
initialized and the contract state is never entered. -/
theorem C5_empty_contracts_abort (entries : List (Option String)) (api : Api)
    (s : FlowState) (input : UserInput)
    (hdup : check_entry_exists entries input.username = false)
    (hauth : api.authenticate = ApiCallResult.ok ())
    (hfetch : api.fetch_contracts = ApiCallResult.ok []) :
    async_step_user entries api s (some input)
      = ⟨s, FlowResult.abort "contracts_missing", ["authenticate", "fetch_contracts"]⟩ := by
  simp [async_step_user, hdup, hauth, hfetch]

/-- C5 witness: empty fetch for a fresh username aborts `contracts_missing`
from the initial state. -/
theorem C5_empty_contracts_abort_witness :
    async_step_user [] ⟨ApiCallResult.ok (), ApiCallResult.ok []⟩ initialFlowState
        (some ⟨"alice", "x", false⟩)
      = ⟨initialFlowState, FlowResult.abort "contracts_missing",
          ["authenticate", "fetch_contracts"]⟩ :=
  C5_empty_contracts_abort [] ⟨ApiCallResult.ok (), ApiCallResult.ok []⟩ initialFlowState
    ⟨"alice", "x", false⟩ rfl rfl rfl

/-- C6: with the `add_all_contracts` flag set, a successful submission
creates the entry at once, titled with `"User: "` plus the submitted
username and carrying the raw submitted input as data; the handler state
is unchanged, so the contract state is never entered. -/
theorem C6_add_all_creates_entry (entries : List (Option String)) (api : Api)
    (s : FlowState) (input : UserInput) (cs : List String)
    (hdup : check_entry_exists entries input.username = false)
    (hauth : api.authenticate = ApiCallResult.ok ())
    (hfetch : api.fetch_contracts = ApiCallResult.ok cs)
    (hcs : cs ≠ [])
    (hall : input.add_all_contracts = true) :
    async_step_user entries api s (some input)
      = ⟨s, FlowResult.createEntry ("User: " ++ input.username) (EntryData.fromUserInput input),
          ["authenticate", "fetch_contracts"]⟩ := by
  simp [async_step_user, hdup, hauth, hfetch, hall, hcs]

/-- C6 witness: `alice` with the flag set and two fetched contracts gets an
immediate entry titled `User: alice` carrying her raw input. -/
theorem C6_add_all_creates_entry_witness :
    async_step_user [] ⟨ApiCallResult.ok (), ApiCallResult.ok ["C1", "C2"]⟩ initialFlowState
        (some ⟨"alice", "x", true⟩)
      = ⟨initialFlowState,
          FlowResult.createEntry ("User: " ++ "alice")
            (EntryData.fromUserInput ⟨"alice", "x", true⟩),
          ["authenticate", "fetch_contracts"]⟩ :=
  C6_add_all_creates_entry [] ⟨ApiCallResult.ok (), ApiCallResult.ok ["C1", "C2"]⟩
    initialFlowState ⟨"alice", "x", true⟩ ["C1", "C2"] rfl rfl rfl (by decide) rfl

/-- C10: an authentication failure raised by the `fetch_contracts` call —
which sits in the same `try` block as `authenticate` — is caught by the
same handler, so the user step re-shows the `user` form annotated with the
`invalid_credentials` error (after both calls ran) and does not abort
`api_error`. -/
theorem C10_auth_failure_during_fetch (entries : List (Option String)) (api : Api)
    (s : FlowState) (input : UserInput)
    (hdup : check_entry_exists entries input.username = false)
    (hauth : api.authenticate = ApiCallResult.ok ())
    (hfetch : api.fetch_contracts = ApiCallResult.authFailedExc) :
    async_step_user entries api s (some input)
      = ⟨s, FlowResult.showForm "user" (some "invalid_credentials"),
          ["authenticate", "fetch_contracts"]⟩
  ∧ (async_step_user entries api s (some input)).result ≠ FlowResult.abort "api_error" := by
  have h : async_step_user entries api s (some input)
      = ⟨s, FlowResult.showForm "user" (some "invalid_credentials"),
          ["authenticate", "fetch_contracts"]⟩ := by
    simp [async_step_user, hdup, hauth, hfetch]
  exact ⟨h, by simp [h]⟩

/-- C10 witness: a fetch-time authentication failure for `alice` re-shows
the credentials form with the inline error. -/
theorem C10_auth_failure_during_fetch_witness :
    async_step_user [] ⟨ApiCallResult.ok (), ApiCallResult.authFailedExc⟩ initialFlowState
        (some ⟨"alice", "x", false⟩)
      = ⟨initialFlowState, FlowResult.showForm "user" (some "invalid_credentials"),
          ["authenticate", "fetch_contracts"]⟩
  ∧ (async_step_user [] ⟨ApiCallResult.ok (), ApiCallResult.authFailedExc⟩ initialFlowState
        (some ⟨"alice", "x", false⟩)).result ≠ FlowResult.abort "api_error" :=
  C10_auth_failure_during_fetch [] ⟨ApiCallResult.ok (), ApiCallResult.authFailedExc⟩
    initialFlowState ⟨"alice", "x", false⟩ rfl rfl rfl

/-- C7 counterexample: submitting the legacy options form (a non-`None`
input) does not finalize — the step's body is a single `async_show_form`
call that never examines its input, so the same placeholder form comes
back and no entry (in particular no empty-data entry) is created. -/
theorem C7_counterexample :
    options_async_step_import ⟨"import", 2, ⟨none, none, none⟩, ⟨none, none, none⟩⟩
        (some ⟨none, none, none, some true⟩)
      = OptionsFlowResult.showImportForm "not_in_use" false
  ∧ options_async_step_import ⟨"import", 2, ⟨none, none, none⟩, ⟨none, none, none⟩⟩
        (some ⟨none, none, none, some true⟩)
      ≠ OptionsFlowResult.createEntry "" ⟨none, none, none, some true⟩ := by
  decide

/-- C7 (amended): the options `import` step shows the form with the single
placeholder boolean `not_in_use` (default false) for every entry and every
input — submissions included — and never creates an entry. -/
theorem C7_import_always_shows_form (entry : ConfigEntryRec)
    (user_input : Option OptionsUserInput) :
    options_async_step_import entry user_input
      = OptionsFlowResult.showImportForm "not_in_use" false := rfl

/-- C8: on a schema-version-1 entry, each default baked into the options
`user` form follows the spec's resolution rule field by field: the option
value when an option exists (options win over data on conflict), else the
entry's data value, else the fixed platform default. -/
theorem C8_v1_defaults_resolution (pd : PlatformDefaults) (entry : ConfigEntryRec)
    (h : entry.version = 1) :
    options_async_step_user pd entry none
      = OptionsFlowResult.showForm "user"
          ⟨specDefault entry.options.invert_invoices entry.data.invert_invoices
              pd.invert_invoices,
           specDefault entry.options.timeout entry.data.timeout pd.timeout,
           specDefault entry.options.scan_interval entry.data.scan_interval
              pd.scan_interval⟩ := by
  obtain ⟨src, ver, ⟨di, dt, ds⟩, ⟨oi, ot, os⟩⟩ := entry
  simp only at h
  subst h
  simp only [options_async_step_user, options_resolved, mergeUnder]
  cases oi <;> cases ot <;> cases os <;> cases di <;> cases dt <;> cases ds <;> rfl

/-- C8 witness: a version-1 entry where an option exists for one field,
only data for another, and neither for the third resolves to the option
value, the data value and the platform default respectively. -/
theorem C8_v1_defaults_resolution_witness :
    options_async_step_user ⟨false, 5, 60⟩
        ⟨"user", 1, ⟨none, some 30, none⟩, ⟨some true, none, none⟩⟩ none
      = OptionsFlowResult.showForm "user"
          ⟨specDefault (some true) none false, specDefault none (some 30) 5,
           specDefault none none 60⟩ :=
  C8_v1_defaults_resolution ⟨false, 5, 60⟩
    ⟨"user", 1, ⟨none, some 30, none⟩, ⟨some true, none, none⟩⟩ rfl

/-- Helper: once the current contract id is remembered, the show path
resolves to it without touching the state. -/
theorem contract_step_show_of_last (s : FlowState) (c : String)
    (h : s.lastContractId = some c) :
    contract_step_show s = ⟨s, FlowResult.pyError "AttributeError"⟩ := by
  simp [contract_step_show, resolveContractId, h]

/-- Helper: no branch of the user step changes the remembered contract id. -/
theorem async_step_user_keeps_last (entries : List (Option String)) (api : Api)
    (s : FlowState) (ui : Option UserInput) (c : String)
    (h : s.lastContractId = some c) :
    (async_step_user entries api s ui).state.lastContractId = some c := by
  match ui with
  | none => simpa [async_step_user] using h
  | some input =>
    simp only [async_step_user]
    split
    · simpa using h
    · match hauth : api.authenticate with
      | ApiCallResult.authFailedExc | ApiCallResult.offlineExc
      | ApiCallResult.mosoblgazExc => simpa [hauth] using h
      | ApiCallResult.ok _ =>
        match hfetch : api.fetch_contracts with
        | ApiCallResult.authFailedExc | ApiCallResult.offlineExc
        | ApiCallResult.mosoblgazExc => simpa [hauth, hfetch] using h
        | ApiCallResult.ok contracts =>
          by_cases hemp : contracts.isEmpty
          · simpa [hauth, hfetch, hemp] using h
          · by_cases hall : input.add_all_contracts
            · simpa [hauth, hfetch, hemp, hall] using h
            · simp [hauth, hfetch, hemp, hall, contract_step_show, resolveContractId, h]

/-- C9: once the contract step has remembered a current contract id, no
step of the flow resets or changes it; a later contract-step call leaves
the pending contract set untouched (an element is removed only on the
first visit, the one that set the id) and records any submitted decision
under that same remembered id. -/
theorem C9_last_contract_id_sticky (s : FlowState) (c : String)
    (entries : List (Option String)) (api : Api) (cfg : CurrentConfig)
    (input : ContractInput) (ci : Option ContractInput) (ui : Option UserInput)
    (h : s.lastContractId = some c) (hcfg : s.currentConfig = some cfg) :
    (async_step_contract s ci).state.lastContractId = some c
  ∧ (async_step_contract s ci).state.contracts = s.contracts
  ∧ (async_step_contract s (some input)).state.currentConfig
      = some { cfg with contracts := dictSet cfg.contracts c (decisionOf input) }
  ∧ (async_step_user entries api s ui).state.lastContractId = some c
  ∧ (async_step_import entries s ui).state.lastContractId = some c := by
  have hsub : ∀ i : ContractInput,
      (async_step_contract s (some i)).state
        = { s with currentConfig := some ⟨cfg.username, cfg.password,
              cfg.add_all_contracts, dictSet cfg.contracts c (decisionOf i)⟩ } := by
    intro i
    obtain ⟨sc, slast, scfg⟩ := s
    simp only at h hcfg
    subst h
    subst hcfg
    simp only [async_step_contract, resolveContractId]
    match sc with
    | none => simp [apply_ite]
    | some [] => simp [apply_ite]
    | some (t :: rest) => simp [contract_step_show, resolveContractId]
  refine ⟨?_, ?_, ?_, async_step_user_keeps_last entries api s ui c h, ?_⟩
  · match ci with
    | none => simp [async_step_contract, resolveContractId, h]
    | some i => rw [hsub i]; simpa using h
  · match ci with
    | none => simp [async_step_contract, resolveContractId, h]
    | some i => rw [hsub i]
  · rw [hsub input]
  · match ui with
    | none => simpa [async_step_import] using h
    | some i =>
      simp only [async_step_import]
      split <;> simpa using h

/-- C9 witness: with id `A` remembered, pending set `B` untouched, the
decision recorded under `A`, and the other steps leaving the id alone. -/
theorem C9_last_contract_id_sticky_witness :
    (async_step_contract ⟨some ["B"], some "A", some ⟨"alice", "x", false, []⟩⟩
        (some ⟨true, none, none⟩)).state.lastContractId = some "A"
  ∧ (async_step_contract ⟨some ["B"], some "A", some ⟨"alice", "x", false, []⟩⟩
        (some ⟨true, none, none⟩)).state.contracts = some ["B"]
  ∧ (async_step_contract ⟨some ["B"], some "A", some ⟨"alice", "x", false, []⟩⟩
        (some ⟨false, none, none⟩)).state.currentConfig
      = some ⟨"alice", "x", false,
          dictSet [] "A" (decisionOf ⟨false, none, none⟩)⟩
  ∧ (async_step_user [] ⟨ApiCallResult.ok (), ApiCallResult.ok ["C1"]⟩
        ⟨some ["B"], some "A", some ⟨"alice", "x", false, []⟩⟩
        (some ⟨"alice", "x", false⟩)).state.lastContractId = some "A"
  ∧ (async_step_import [] ⟨some ["B"], some "A", some ⟨"alice", "x", false, []⟩⟩
        (some ⟨"alice", "x", false⟩)).state.lastContractId = some "A" :=
  C9_last_contract_id_sticky ⟨some ["B"], some "A", some ⟨"alice", "x", false, []⟩⟩ "A"
    [] ⟨ApiCallResult.ok (), ApiCallResult.ok ["C1"]⟩ ⟨"alice", "x", false, []⟩
    ⟨false, none, none⟩ (some ⟨true, none, none⟩) (some ⟨"alice", "x", false⟩) rfl rfl

end Mosoblgaz
